import Mathlib

/-!
Shallow embedding of the trip-plan synthesis pipeline of the
IDSS Superior Field Trip Planner (TypeScript sources: the planner service
module — `normalizeDate`, `parseDateNormalized`, `daysInclusive`, `safe`,
`estimateCosts`, `computeReliability`, `buildThreePlans` — together with the
constants module `RATES` / `SUGGESTED_CITIES` / `IDSS_COORDS`).

Modelling conventions:
* JavaScript numbers are modelled as exact rationals (`ℚ`).  `Math.round`
  rounds half-up for all inputs, exactly like Mathlib's `round`.
  `Number.EPSILON` is the exact rational `2 ^ (-52)`.
* Strings are Lean `String`s; character-level operations (trim, split,
  regex tests used by the source) are spelled out on `List Char`.
* Every external call (`fetch`-based providers, the Gemini SDK) is caught
  locally by the source and converted to `null` / `[]`; the set of possible
  outcomes of the external world is therefore a record of total functions
  (`Env`), one per provider entry point.
* `haversineDistance` in the source is computed with `Float` trigonometry
  (`Math.sin` / `Math.cos` / `Math.atan2` / `Math.sqrt`), which has no exact
  rational counterpart; it is carried as an oracle field of `Env`.  No claim
  considered here depends on its numeric value.
-/

/- ===========================
   JS string helpers
   =========================== -/

/-- Character class of the JavaScript regex `\s` (whitespace).  The rare
Unicode space separators U+1680, U+2000–U+200A, U+2028, U+2029, U+202F,
U+205F and U+3000 are also matched by `\s`; they are included below. -/
def isJsSpace (c : Char) : Bool :=
  c ∈ ([' ', '\t', '\n', '\r', '\x0b', '\x0c', ' ', '﻿',
        ' ', ' ', ' ', ' ', ' ', ' ', ' ',
        ' ', ' ', ' ', ' ', ' ', ' ', ' ',
        ' ', ' ', '　'] : List Char)

/-- JavaScript `String.prototype.trim`: strip leading and trailing `\s`. -/
def jsTrim (s : String) : String :=
  ⟨((s.data.dropWhile isJsSpace).reverse.dropWhile isJsSpace).reverse⟩

/-- JavaScript `String.prototype.toLowerCase`, restricted to the ASCII
letters that the source compares against (`'multi'`). -/
def jsToLower (s : String) : String := ⟨s.data.map Char.toLower⟩

/-- `listStartsWith l p` : `p` is a prefix of `l`. -/
def listStartsWith : List Char → List Char → Bool
  | _, [] => true
  | [], _ :: _ => false
  | c :: cs, d :: ds => c = d && listStartsWith cs ds

/-- Substring test used for JavaScript `String.prototype.includes`. -/
def listIncludes (sub : List Char) : List Char → Bool
  | [] => listStartsWith [] sub
  | c :: cs => listStartsWith (c :: cs) sub || listIncludes sub cs

/-- JavaScript `s.includes(sub)`. -/
def strIncludes (s sub : String) : Bool := listIncludes sub.data s.data

/-- JavaScript `s.split(sep)` for a single-character separator, on char
lists: `"a..b".split('.') = ["a", "", "b"]`, `"".split('.') = [""]`. -/
def splitOnChar (sep : Char) (l : List Char) : List (List Char) :=
  l.foldr
    (fun c acc =>
      match acc with
      | [] => [[c]]
      | g :: gs => if c = sep then [] :: g :: gs else (c :: g) :: gs)
    [[]]

/-- Truthiness of a JavaScript string-or-null value: `null` and `''` are
falsy, every other string is truthy. -/
def jsTruthyStr : Option String → Bool
  | none => false
  | some s => s ≠ ""

/-- Truthiness of a JavaScript number-or-null value: `null` and `0` are
falsy (`NaN` is not representable in the rational model). -/
def jsTruthyNum : Option ℚ → Bool
  | none => false
  | some q => q ≠ 0

/- ===========================
   normalizeDate / parseDateNormalized / daysInclusive
   =========================== -/

/-- Test of the source regex `^\d{4}-\d{2}-\d{2}$` (ISO date from the
date picker). -/
def isIsoDate (s : String) : Bool :=
  match s.data with
  | [a, b, c, d, e, f, g, h, i, j] =>
      a.isDigit && b.isDigit && c.isDigit && d.isDigit && e = '-' &&
      f.isDigit && g.isDigit && h = '-' && i.isDigit && j.isDigit
  | _ => false

/-- The ISO branch of `normalizeDate`:
`const [y, m, d] = s.split('-'); return d + '.' + m + '.' + y;`.
The regex guarantees exactly three groups, so the `getD` defaults are
never used. -/
def isoRearrange (s : String) : String :=
  let parts := splitOnChar '-' s.data
  ⟨parts.getD 2 [] ++ '.' :: parts.getD 1 [] ++ '.' :: parts.getD 0 []⟩

/-- Character class of the source regex `[\/\-\s]+`. -/
def isSepChar (c : Char) : Bool := c = '/' || c = '-' || isJsSpace c

/-- Worker for `collapseSeps`; the flag records whether the previous
character belonged to a separator run (so the run only emits one `'.'`). -/
def collapseSepsAux : Bool → List Char → List Char
  | _, [] => []
  | prevSep, c :: cs =>
      if isSepChar c then
        if prevSep then collapseSepsAux true cs
        else '.' :: collapseSepsAux true cs
      else c :: collapseSepsAux false cs

/-- `s.replace(/[\/\-\s]+/g, '.')`: each maximal run of separator
characters becomes a single `'.'`. -/
def collapseSeps (l : List Char) : List Char := collapseSepsAux false l

/-- `s.replace(/^\.+|\.+$/g, '')`: strip leading and trailing dots. -/
def stripOuterDots (l : List Char) : List Char :=
  ((l.dropWhile (· = '.')).reverse.dropWhile (· = '.')).reverse

/-- `p.replace(/^0+/, '') || '0'`. -/
def stripLeadingZeros (l : List Char) : List Char :=
  match l.dropWhile (· = '0') with
  | [] => ['0']
  | r => r

/-- Test of the source regex `^\d{1,4}$`. -/
def isDigits1to4 (l : List Char) : Bool :=
  decide (1 ≤ l.length) && decide (l.length ≤ 4) && l.all Char.isDigit

/-- `p.padStart(2, '0')`. -/
def padStart2 (l : List Char) : List Char :=
  if l.length < 2 then List.replicate (2 - l.length) '0' ++ l else l

/-- `parseInt` on an all-digit string. -/
def digitsToNat (l : List Char) : ℕ :=
  l.foldl (fun acc c => 10 * acc + (c.toNat - '0'.toNat)) 0

/-- `normalizeDate` (planner service module): returns `DD.MM.YYYY` or
`null`.  The first branch handles ISO `YYYY-MM-DD` input from the date
picker and returns the rearranged string immediately. -/
def normalizeDate (input : String) : Option String :=
  if input = "" then none
  else
    let s := jsTrim input
    if isIsoDate s then some (isoRearrange s)
    else
      let l := stripOuterDots (collapseSeps s.data)
      let parts := splitOnChar '.' l
      if parts.length ≠ 3 then none
      else
        let d := stripLeadingZeros (parts.getD 0 [])
        let m := stripLeadingZeros (parts.getD 1 [])
        let y := stripLeadingZeros (parts.getD 2 [])
        if ¬ (isDigits1to4 d && isDigits1to4 m && isDigits1to4 y) then none
        else
          let d := padStart2 d
          let m := padStart2 m
          let y? : Option (List Char) :=
            if y.length = 2 then
              some (if digitsToNat y ≤ 49 then '2' :: '0' :: y else '1' :: '9' :: y)
            else if y.length = 1 then some ('2' :: '0' :: '0' :: y)
            else if y.length = 3 then none
            else some y
          match y? with
          | none => none
          | some y =>
            if y.length ≠ 4 then none
            else
              let di := digitsToNat d
              let mi := digitsToNat m
              let yi := digitsToNat y
              if mi < 1 ∨ 12 < mi then none
              else
                let mdays : List ℕ :=
                  [31, if (yi % 4 = 0 ∧ yi % 100 ≠ 0) ∨ yi % 400 = 0 then 29 else 28,
                   31, 30, 31, 30, 31, 31, 30, 31, 30, 31]
                if di < 1 ∨ mdays.getD (mi - 1) 0 < di then none
                else some ⟨d ++ '.' :: m ++ '.' :: y⟩

/-- `Math.round`: round to nearest, half towards `+∞` — exactly
`⌊x + 1/2⌋`.  Written with the executable `Rat.floor` so that concrete
runs reduce; `jsRound_eq_round` bridges to Mathlib's `round`. -/
def jsRound (q : ℚ) : ℤ := Rat.floor (q + 1 / 2)

theorem jsRound_eq_round (q : ℚ) : jsRound q = round q := by
  rw [round_eq]
  show Rat.floor (q + 1 / 2) = ⌊q + 1 / 2⌋
  rw [Rat.floor_def', Rat.floor_def]

/-- A JavaScript `Date`, reduced to its day number (days since the Unix
epoch).  Local time is identified with UTC; the `Math.round` in
`daysInclusive` makes DST offsets unobservable there. -/
structure JsDate where
  epochDays : ℤ
deriving DecidableEq

/-- Days from the epoch for a civil date with month in `1..12`
(Gregorian calendar, proleptic), as used by the `Date` constructor. -/
def daysFromCivil (y m d : ℤ) : ℤ :=
  let y := y - (if m ≤ 2 then 1 else 0)
  let era := Int.fdiv y 400
  let yoe := y - era * 400
  let mp := (m + 9) % 12
  let doy := (153 * mp + 2) / 5 + d - 1
  let doe := yoe * 365 + yoe / 4 - yoe / 100 + doy
  era * 146097 + doe - 719468

/-- `new Date(year, monthIndex, day)`: the month index and day are
normalized by carrying (month 12 rolls into the next year, day 0 means the
last day of the previous month, …).  Years `0..99` are interpreted as
`1900..1999` by the two-argument-plus `Date` constructor. -/
def jsMkDate (year monthIndex day : ℤ) : JsDate :=
  let year := if 0 ≤ year ∧ year ≤ 99 then year + 1900 else year
  let y := year + Int.fdiv monthIndex 12
  let m := Int.emod monthIndex 12 + 1
  ⟨daysFromCivil y m 1 + (day - 1)⟩

/-- `parseDateNormalized` (planner service module).  The argument is a
string or `null`; `null` and `''` are falsy. -/
def parseDateNormalized (s : Option String) : Option JsDate :=
  let n := match s with
           | none => none
           | some str => if str = "" then none else normalizeDate str
  match n with
  | none => none
  | some n =>
    let p := splitOnChar '.' n.data
    some (jsMkDate (digitsToNat (p.getD 2 []))
                   ((digitsToNat (p.getD 1 []) : ℤ) - 1)
                   (digitsToNat (p.getD 0 [])))

/-- `daysInclusive` (planner service module):
`Math.round((b - a) / 86400000) + 1` on the dates' time values. -/
def daysInclusive (a b : JsDate) : ℤ :=
  jsRound ((((b.epochDays - a.epochDays) * 86400000 : ℤ) : ℚ) / (1000 * 60 * 60 * 24)) + 1

/- ===========================
   safe (2-decimal rounding) and JS number rendering
   =========================== -/

/-- `Number.EPSILON = 2 ^ (-52)`. -/
def jsEpsilon : ℚ := 1 / 4503599627370496

/-- `safe` (planner service module):
`Math.round((n + Number.EPSILON) * 100) / 100`. -/
def safe (n : ℚ) : ℚ := ((jsRound ((n + jsEpsilon) * 100) : ℤ) : ℚ) / 100

/-- Rendering of a JavaScript number inside a template literal.  Every
number the source interpolates is an integer or has at most two decimal
places, and JS prints those without trailing zeros (`148.63`, `1.1`,
`150`); the final branch is unreachable for source-rendered values. -/
def jsNumToString (q : ℚ) : String :=
  let sgn := if q < 0 then "-" else ""
  let qa := |q|
  if qa.den = 1 then sgn ++ toString qa.num
  else if 100 % qa.den = 0 then
    let c := qa.num * (100 / (qa.den : ℤ))
    let ip := c / 100
    let r := c % 100
    if r % 10 = 0 then sgn ++ toString ip ++ "." ++ toString (r / 10)
    else if r < 10 then sgn ++ toString ip ++ ".0" ++ toString r
    else sgn ++ toString ip ++ "." ++ toString r
  else sgn ++ toString qa.num ++ "/" ++ toString qa.den

/-- `n.toFixed(0)` for the route distances interpolated into transport
notes (round to nearest integer, then print). -/
def jsToFixed0 (q : ℚ) : String := toString (jsRound q)

/- ===========================
   Data model (types module)
   =========================== -/

/-- `GeoLocation` (types module). -/
structure GeoLocation where
  lat : ℚ
  lng : ℚ
  name : String
  source : String
  url : Option String
deriving DecidableEq

/-- `Poi` (types module). -/
structure Poi where
  label : String
  lat : ℚ
  lng : ℚ
  url : Option String
  source : String
deriving DecidableEq

/-- `scope` field of the form state: `'specific' | 'regional'`. -/
inductive Scope | specific | regional
deriving DecidableEq

def Scope.str : Scope → String
  | .specific => "specific"
  | .regional => "regional"

/-- `transport_pref` field of the form state. -/
inductive TransportPref | bus | plane | train | ferry | private_car | mixed
deriving DecidableEq

/-- `TripFormState` (types module).  `num_students` is entered through a
numeric form input and is modelled as a natural number. -/
structure TripFormState where
  origin : String
  destinations : List String
  scope : Scope
  trip_type : String
  grade_level : String
  num_students : ℕ
  teachers : String
  transport_pref : TransportPref
  dep_date : String
  ret_date : String
  budget : String
  focus : String
  notes : String
deriving DecidableEq

/-- `CostBreakdown` (types module). -/
structure CostBreakdown where
  transport : ℚ
  accommodation : ℚ
  meals : ℚ
  entry_fees : ℚ
  activity_fees : ℚ
  local_transport : ℚ
  contingency : ℚ
  total : ℚ
  per_student : ℚ
  transport_note : String
  accom_rate_per_person : ℚ
  accom_note : String
deriving DecidableEq

/-- `ItineraryDay` (types module); `poi_name` is optional. -/
structure ItineraryDay where
  day : ℤ
  activity : String
  poi_name : Option String := none
deriving DecidableEq

/-- `SourceLink` (types module). -/
structure SourceLink where
  url : Option String
  title : String
  source : String
  verified : Bool
  description : Option String := none
  lat : Option ℚ := none
  lng : Option ℚ := none
deriving DecidableEq

/-- `TripPlan` (types module). -/
structure TripPlan where
  title : String
  reliability : ℤ
  destination : String
  number_of_days : ℤ
  itinerary : List ItineraryDay
  estimated_cost_per_student : String
  cost_breakdown : CostBreakdown
  distance_km : ℚ
  travel_time_h : ℚ
  accompanying_teachers : String
  why : String
  sources : List SourceLink
  polyline : List (ℚ × ℚ)
deriving DecidableEq

/-- `PlannerResult` (types module). -/
structure PlannerResult where
  plans : List TripPlan
  origin : Option GeoLocation
deriving DecidableEq

/- ===========================
   Constants module
   =========================== -/

def IDSS_COORDS_lat : ℚ := 43.8563
def IDSS_COORDS_lng : ℚ := 18.4131

def RATES_bus_capacity : ℕ := 50
def RATES_bus_cost_per_km_per_bus : ℚ := 1.1
def RATES_flight_per_person_avg : ℚ := 150
def RATES_train_per_person_avg : ℚ := 60
def RATES_accommodation_budget : ℚ := 25
def RATES_accommodation_balanced : ℚ := 45
def RATES_accommodation_premium : ℚ := 80
def RATES_meals_per_person_per_day : ℚ := 15
def RATES_entry_fee_per_student_avg : ℚ := 7
def RATES_teacher_discount : ℚ := 0.5

/-- `SUGGESTED_CITIES` (constants module), in object-literal insertion
order (which is the iteration order of `Object.keys`). -/
def SUGGESTED_CITIES : List (String × List String) :=
  [("Bosnia and Herzegovina", ["Sarajevo", "Mostar", "Tuzla"]),
   ("Croatia", ["Zagreb", "Split", "Dubrovnik"]),
   ("Serbia", ["Belgrade", "Novi Sad", "Niš"]),
   ("Austria", ["Vienna", "Salzburg", "Innsbruck"]),
   ("Germany", ["Berlin", "Munich", "Hamburg"]),
   ("Italy", ["Venice", "Florence", "Rome"]),
   ("Hungary", ["Budapest", "Szeged", "Pecs"])]

/- ===========================
   Cost estimator
   =========================== -/

/-- Plan tier: `'budget' | 'balanced' | 'premium'`. -/
inductive Tier | budget | balanced | premium
deriving DecidableEq

def Tier.str : Tier → String
  | .budget => "budget"
  | .balanced => "balanced"
  | .premium => "premium"

/-- `tier.charAt(0).toUpperCase() + tier.slice(1)`. -/
def Tier.cap : Tier → String
  | .budget => "Budget"
  | .balanced => "Balanced"
  | .premium => "Premium"

/-- The source wraps the breakdown in an object `{ breakdown }`. -/
structure EstimateResult where
  breakdown : CostBreakdown
deriving DecidableEq

/-- `estimateCosts` (planner service module), translated line by line. -/
def estimateCosts (params : TripFormState) (distance_km : ℚ) (days : ℤ)
    (planTier : Tier) : EstimateResult :=
  let students := params.num_students
  let providedTeachers : ℕ :=
    if params.teachers = "" then 0
    else ((params.teachers.splitOn ",").filter (fun s => (jsTrim s).length > 0)).length
  let requiredTeachers : ℕ := max 1 ((students + 14) / 15)
  let teachers := max providedTeachers requiredTeachers
  let people : ℕ := students + teachers
  let tc : ℚ × String :=
    match params.transport_pref with
    | .plane =>
        ((people : ℚ) * RATES_flight_per_person_avg,
         "Flights for " ++ toString people ++ " pax @ ~" ++
           jsNumToString RATES_flight_per_person_avg ++ " EUR")
    | .train =>
        ((people : ℚ) * RATES_train_per_person_avg,
         "Trains for " ++ toString people ++ " pax @ ~" ++
           jsNumToString RATES_train_per_person_avg ++ " EUR")
    | .ferry =>
        ((people : ℚ) * 80, "Ferry for " ++ toString people ++ " pax @ ~80 EUR")
    | .private_car =>
        (distance_km * 0.30 * 2,
         "Private Car ~" ++ jsToFixed0 distance_km ++ " km (round-trip) @ 0.30 EUR/km")
    | _ =>
        let buses : ℕ := max 1 ((people + (RATES_bus_capacity - 1)) / RATES_bus_capacity)
        let totalDist : ℚ := distance_km * 2 + (days : ℚ) * 50
        ((buses : ℚ) * totalDist * RATES_bus_cost_per_km_per_bus,
         toString buses ++ " bus(es) × ~" ++ jsToFixed0 totalDist ++
           " km (round-trip + local) × " ++ jsNumToString RATES_bus_cost_per_km_per_bus ++
           " EUR/km")
  let transportCostTotal := tc.1
  let transportNote := tc.2
  let accomRate : ℚ :=
    match planTier with
    | .budget => RATES_accommodation_budget
    | .premium => RATES_accommodation_premium
    | .balanced => RATES_accommodation_balanced
  let nights : ℤ := max 0 (days - 1)
  let accomTotal : ℚ := accomRate * (people : ℚ) * (nights : ℚ)
  let mealsTotal : ℚ := RATES_meals_per_person_per_day * (people : ℚ) * (days : ℚ)
  let entryTotal : ℚ :=
    RATES_entry_fee_per_student_avg * (students : ℚ) +
    RATES_entry_fee_per_student_avg * (teachers : ℚ) * RATES_teacher_discount
  let activityFees := safe (entryTotal * 0.2)
  let localTransport := safe ((days : ℚ) * (people : ℚ) * 5)
  let contingency := safe ((transportCostTotal + accomTotal + mealsTotal + entryTotal) * 0.05)
  let extras := safe (activityFees + localTransport + contingency)
  let total := safe (transportCostTotal + accomTotal + mealsTotal + entryTotal + extras)
  let perStudent := safe (total / (max 1 students : ℕ))
  { breakdown :=
    { transport := safe transportCostTotal
      accommodation := safe accomTotal
      meals := safe mealsTotal
      entry_fees := safe entryTotal
      activity_fees := activityFees
      local_transport := localTransport
      contingency := contingency
      total := total
      per_student := perStudent
      transport_note := transportNote
      accom_rate_per_person := accomRate
      accom_note := toString nights ++ " nights @ ~" ++ jsNumToString accomRate ++
        " EUR/person (" ++ planTier.str ++ ")" } }

/- ===========================
   Reliability scorer
   =========================== -/

/-- Per-source score increment of `computeReliability`.  The regex test
`/^https:\/\//i` is a case-insensitive prefix check. -/
def sourceBonus (s : SourceLink) : ℤ :=
  (if s.source = "google-maps" then 20 else 0) +
  (if s.source = "opentripmap" then 15 else 0) +
  (if s.source = "ors" then 12 else 0) +
  (if s.source = "wikidata" then 10 else 0) +
  (if s.source = "geonames" then 6 else 0) +
  (if s.verified then 8 else 0) +
  (if jsTruthyStr s.url ∧
      listStartsWith (jsToLower (s.url.getD "")).data "https://".data then 6 else 0)

/-- `computeReliability` (planner service module).  The running score is
an integer, so the final `Math.round` is the identity. -/
def computeReliability (sources : List SourceLink) : ℤ :=
  if sources.isEmpty then 42
  else min 98 (sources.foldl (fun score s => score + sourceBonus s) 40)

/- ===========================
   Source dedup
   =========================== -/

/-- Dedup key of the source-merge step: the `(url, title)` pair compared
with `===`. -/
def srcKey (s : SourceLink) : Option String × String := (s.url, s.title)

/-- The source-merge deduplication step (used identically in both
branches of `buildThreePlans`):
`sources.filter((s, i, self) => i === self.findIndex(t => t.url === s.url && t.title === s.title))`. -/
def dedupSources (l : List SourceLink) : List SourceLink :=
  ((l.enum.filter (fun p => l.findIdx (fun t => srcKey t = srcKey p.2) = p.1)).map Prod.snd)

/- ===========================
   External world (provider outcomes)
   =========================== -/

/-- Result object of `orsRouteDistance` (either provider data or the
haversine fallback): `distance_m` / `duration_s` may be `null`. -/
structure RouteRaw where
  distance_m : Option ℚ
  duration_s : Option ℚ
  polyline : List (ℚ × ℚ)
deriving DecidableEq

/-- Arguments of `generateGeminiItinerary` (the planner passes these
verbatim; the prompt text built from them is opaque). -/
structure GenItineraryArgs where
  destinations : List String
  days : ℤ
  grade : String
  focus : String
  tier : String
  origin : String
  travelTimeHours : ℚ
  poiList : List (String × Option String)
  notes : String
deriving DecidableEq

/-- Parsed result of `generateGeminiItinerary` (empty on any provider
failure, missing key, or malformed output — the source absorbs those). -/
structure GenItineraryResult where
  itinerary : List ItineraryDay
  poi_descriptions : List (String × String)
deriving DecidableEq

/-- One fixed outcome of the external world.  Each field models one
provider entry point exactly at the boundary where the source absorbs
failures (`null` / `[]` results).  `haversine_m` stands for the pure
`haversineDistance` helper, which the source computes with `Float`
trigonometry; it has no exact rational counterpart and no claim below
depends on its value. -/
structure Env where
  geonames : String → Option GeoLocation
  ors : String → Option GeoLocation
  route : List (ℚ × ℚ) → Option RouteRaw
  otm : ℚ → ℚ → ℕ → List Poi
  wikidata : ℚ → ℚ → ℕ → String → List Poi
  geminiKey : Option String
  geminiSuggest : String → ℚ → ℚ → List Poi
  geminiItinerary : GenItineraryArgs → GenItineraryResult
  haversine_m : ℚ → ℚ → ℚ → ℚ → ℚ

/-- `await geocodeGeoNames(q) || await geocodeORS(q)`. -/
def geocodeChain (env : Env) (q : String) : Option GeoLocation :=
  match env.geonames q with
  | some g => some g
  | none => env.ors q

/- ===========================
   buildThreePlans
   =========================== -/

/-- Errors thrown by `buildThreePlans`; the payload of `infeasible` is
the pair of numbers interpolated into the error message
(`Math.round(travel_time_h * 2)` and `days`). -/
inductive BuildError
  | invalidDates
  | depAfterRet
  | multiTooShort
  | infeasible (roundTripH : ℤ) (days : ℤ)
deriving DecidableEq

/-- Origin resolution: geocode `formData.origin` when it is a non-blank
string, falling back to the hardcoded IDSS Sarajevo location. -/
def resolveOrigin (env : Env) (fd : TripFormState) : GeoLocation :=
  let viaProviders : Option GeoLocation :=
    if fd.origin ≠ "" ∧ jsTrim fd.origin ≠ "" then geocodeChain env fd.origin else none
  match viaProviders with
  | some g => g
  | none =>
      { lat := IDSS_COORDS_lat, lng := IDSS_COORDS_lng, name := "IDSS Sarajevo",
        source := "default", url := none }

/-- `formData.destinations.filter(d => d.trim().length > 0)`. -/
def validDestinations (fd : TripFormState) : List String :=
  fd.destinations.filter (fun d => (jsTrim d).length > 0)

/-- The explicit-destination resolution loop: geocode each entry,
dropping the ones no provider can resolve. -/
def resolveStops (env : Env) (dests : List String) : List GeoLocation :=
  dests.filterMap (geocodeChain env)

/-- Candidate destination of the suggested/regional mode. -/
structure Candidate where
  city : String
  country : Option String := none
  lat : Option ℚ := none
  lng : Option ℚ := none
deriving DecidableEq

/-- Body of the Gemini-suggestion loop: geocode the suggestion and add it
unless a candidate with the same resolved name is already present. -/
def addSuggestion (env : Env) (acc : List Candidate) (s : Poi) : List Candidate :=
  match geocodeChain env s.label with
  | none => acc
  | some ge =>
      if acc.any (fun c => c.city = ge.name) then acc
      else acc ++ [{ city := ge.name, lat := some ge.lat, lng := some ge.lng }]

/-- Destination suggestion (regional mode): up to 4 Gemini suggestions
resolved and deduplicated; if none survive, the curated
`SUGGESTED_CITIES` list flattened in insertion order and truncated
to 12. -/
def suggestedCandidates (env : Env) (fd : TripFormState) (originGeo : GeoLocation)
    (forceTemplates : Bool) : List Candidate :=
  let cands : List Candidate :=
    if ¬ forceTemplates ∧ env.geminiKey.isSome then
      let prompt := "Suggest 3 distinct and best cities/regions for a " ++ fd.trip_type ++
        " field trip for grade " ++ fd.grade_level ++ " students. Focus: " ++ fd.focus ++
        ". Scope: " ++ fd.scope.str ++ ". Origin: " ++ originGeo.name ++ "."
      ((env.geminiSuggest prompt originGeo.lat originGeo.lng).take 4).foldl
        (addSuggestion env) []
    else []
  if cands.length = 0 then
    let all := SUGGESTED_CITIES.foldl
      (fun acc p => acc ++ p.2.map (fun city => { city := city, country := some p.1 : Candidate }))
      []
    if all.length > 12 then all.take 12 else all
  else cands

/-- Haversine fallback of the multi-stop route: sum pairwise haversine
distances, estimate duration at 50 km/h, polyline through the input
points. -/
def haversineFallbackMulti (env : Env) (origin : GeoLocation)
    (stops : List GeoLocation) : RouteRaw :=
  let step := fun (acc : ℚ × List (ℚ × ℚ) × GeoLocation) (s : GeoLocation) =>
    (acc.1 + env.haversine_m acc.2.2.lat acc.2.2.lng s.lat s.lng,
     (s.lat, s.lng) :: acc.2.1, s)
  let fin := stops.foldl step (0, [(origin.lat, origin.lng)], origin)
  { distance_m := some fin.1,
    duration_s := some (fin.1 / 50000 * 3600),
    polyline := fin.2.1.reverse }

/-- Multi-stop route: the routing provider's answer when it carries a
truthy `distance_m`, otherwise the haversine fallback. -/
def resolveRouteMulti (env : Env) (origin : GeoLocation)
    (stops : List GeoLocation) : RouteRaw :=
  let coords := (origin.lng, origin.lat) :: stops.map (fun s => (s.lng, s.lat))
  match env.route coords with
  | some r => if jsTruthyNum r.distance_m then r else haversineFallbackMulti env origin stops
  | none => haversineFallbackMulti env origin stops

/-- Single-destination route with its haversine fallback (regional
mode). -/
def resolveRouteSingle (env : Env) (origin : GeoLocation) (lat lng : ℚ) : RouteRaw :=
  match env.route [(origin.lng, origin.lat), (lng, lat)] with
  | some r =>
      if jsTruthyNum r.distance_m then r
      else
        let m := env.haversine_m origin.lat origin.lng lat lng
        { distance_m := some m, duration_s := some (m / 50000 * 3600),
          polyline := [(origin.lat, origin.lng), (lat, lng)] }
  | none =>
      let m := env.haversine_m origin.lat origin.lng lat lng
      { distance_m := some m, duration_s := some (m / 50000 * 3600),
        polyline := [(origin.lat, origin.lng), (lat, lng)] }

/-- POI gathering of the multi-stop branch: OpenTripMap per stop (5 km),
Wikidata appended for a stop when OpenTripMap yielded fewer than 2. -/
def gatherMultiPois (env : Env) (fd : TripFormState) (forceTemplates : Bool)
    (stops : List GeoLocation) : List Poi :=
  if forceTemplates then []
  else
    stops.foldl
      (fun allPois stop =>
        let otmPois := env.otm stop.lat stop.lng 5000
        let allPois := allPois ++ otmPois
        if otmPois.length < 2 then allPois ++ env.wikidata stop.lat stop.lng 10 fd.focus
        else allPois)
      []

/-- `Map.prototype.set`: overwrite in place, append new keys. -/
def mapSet (m : List (String × String)) (k v : String) : List (String × String) :=
  if m.any (fun p => p.1 = k) then m.map (fun p => if p.1 = k then (k, v) else p)
  else m ++ [(k, v)]

/-- Exact lookup in the description map, then the fuzzy
`key.includes(label) || label.includes(key)` scan in insertion order. -/
def lookupDesc (pd : List (String × String)) (label : String) : Option String :=
  match (pd.find? (fun p => p.1 = label)).map Prod.snd with
  | some d => some d
  | none =>
      (pd.find? (fun kv => strIncludes kv.1 label || strIncludes label kv.1)).map Prod.snd

/-- The per-POI source assembly loop shared (verbatim) by both branches:
keep a POI when its URL or its looked-up description is truthy. -/
def sourcesFromPois (pois : List Poi) (pd : List (String × String)) : List SourceLink :=
  pois.foldl
    (fun sources p =>
      let desc := lookupDesc pd p.label
      if jsTruthyStr p.url ∨ jsTruthyStr desc then
        sources ++ [{ url := p.url, title := p.label, source := p.source,
                      verified := jsTruthyStr p.url, description := desc,
                      lat := some p.lat, lng := some p.lng }]
      else sources)
    []

/-- The origin entry appended to every plan's source list. -/
def originSourceLink (o : GeoLocation) : SourceLink :=
  { url := o.url, title := o.name, source := o.source, verified := jsTruthyStr o.url,
    description := some "Departure", lat := some o.lat, lng := some o.lng }

/-- Itinerary synthesis plus description map for one multi-stop plan
(`forceTemplates` skips the provider call entirely). -/
def synthMulti (env : Env) (fd : TripFormState) (forceTemplates : Bool)
    (stops : List GeoLocation) (originGeo : GeoLocation) (days : ℤ)
    (tier : Tier) (travel_time_h : ℚ) (allPois : List Poi) :
    List ItineraryDay × List (String × String) :=
  if forceTemplates then ([], [])
  else
    let g := env.geminiItinerary
      { destinations := stops.map GeoLocation.name, days := days, grade := fd.grade_level,
        focus := fd.focus, tier := tier.str, origin := originGeo.name,
        travelTimeHours := travel_time_h,
        poiList := allPois.map (fun p => (p.label, p.url)), notes := fd.notes }
    (if g.itinerary.length > 0 then g.itinerary else [],
     g.poi_descriptions.foldl (fun m d => mapSet m d.1 d.2) [])

/-- One tier of the multi-stop branch; throws the infeasibility error
when twice the one-way travel time exceeds `days × 9` hours. -/
def multiPlanFor (env : Env) (fd : TripFormState) (forceTemplates : Bool)
    (originGeo : GeoLocation) (stops : List GeoLocation) (days : ℤ)
    (tier : Tier) : Except BuildError TripPlan :=
  let destinationTitle := String.intercalate " -> " (stops.map GeoLocation.name)
  let title := destinationTitle ++ " — " ++ tier.cap
  let routeInfo := resolveRouteMulti env originGeo stops
  let distance_km := routeInfo.distance_m.getD 0 / 1000
  let travel_time_h := routeInfo.duration_s.getD 0 / 3600
  if travel_time_h * 2 > (days : ℚ) * 9 then
    .error (.infeasible (jsRound (travel_time_h * 2)) days)
  else
    let cost := estimateCosts fd distance_km (max 1 days) tier
    let allPois := gatherMultiPois env fd forceTemplates stops
    let syn := synthMulti env fd forceTemplates stops originGeo days tier travel_time_h allPois
    let itinerary := syn.1
    let sources := sourcesFromPois (allPois.take 15) syn.2 ++ [originSourceLink originGeo]
    let uniqueSources := dedupSources sources
    .ok
      { title := title
        reliability := computeReliability uniqueSources
        destination := destinationTitle
        number_of_days := days
        itinerary := if itinerary.length ≠ 0 then itinerary
                     else [{ day := 1, activity := "Itinerary generation failed." }]
        estimated_cost_per_student := jsNumToString cost.breakdown.per_student ++ " EUR"
        cost_breakdown := cost.breakdown
        distance_km := safe distance_km
        travel_time_h := safe travel_time_h
        accompanying_teachers := fd.teachers
        why := "Multi-stop route fitting focus: " ++ fd.focus ++ "."
        sources := uniqueSources.take 8
        polyline := routeInfo.polyline }

/-- Enriched candidate of the regional branch. -/
structure Enriched where
  city : String
  lat : ℚ
  lng : ℚ
  pois : List Poi
deriving DecidableEq

/-- Enrichment of a single candidate (regional branch): trust candidate
coordinates when both are truthy, otherwise geocode `city, country` via
GeoNames and plain `city` via ORS; gather OpenTripMap POIs (8 km) and top
up with label-deduplicated Wikidata results when fewer than 5. -/
def resolveCand (env : Env) (fd : TripFormState) (forceTemplates : Bool)
    (c : Candidate) : Option Enriched :=
  let ge : Option GeoLocation :=
    if jsTruthyNum c.lat ∧ jsTruthyNum c.lng then
      some { lat := c.lat.getD 0, lng := c.lng.getD 0, name := c.city,
             source := "input", url := none }
    else
      match env.geonames (c.city ++ (match c.country with
                                     | some ct => ", " ++ ct
                                     | none => "")) with
      | some g => some g
      | none => env.ors c.city
  match ge with
  | none => none
  | some ge =>
      let pois : List Poi :=
        if forceTemplates then []
        else
          let otm := env.otm ge.lat ge.lng 8000
          if otm.length < 5 then
            (env.wikidata ge.lat ge.lng 15 fd.focus).foldl
              (fun ps w => if ps.any (fun p => p.label = w.label) then ps else ps ++ [w])
              otm
          else otm
      some { city := ge.name, lat := ge.lat, lng := ge.lng, pois := pois.take 10 }

/-- The enrichment loop of the regional branch, including its early
`break` once three candidates are enriched. -/
def enrichLoop (env : Env) (fd : TripFormState) (forceTemplates : Bool) :
    List Candidate → List Enriched → List Enriched
  | [], acc => acc
  | c :: rest, acc =>
      match resolveCand env fd forceTemplates c with
      | none => enrichLoop env fd forceTemplates rest acc
      | some e =>
          let acc := acc ++ [e]
          if acc.length ≥ 3 then acc else enrichLoop env fd forceTemplates rest acc

/-- The hardcoded ultimate-fallback candidate. -/
def sarajevoFallback : Enriched :=
  { city := "Sarajevo, BiH", lat := 43.8563, lng := 18.4131, pois := [] }

/-- Selection of the three plan seeds: the first three enriched
candidates, or whatever resolved padded by repeating the first entry
(seeding with the hardcoded Sarajevo fallback when nothing resolved). -/
def chooseThree (enriched : List Enriched) : List Enriched :=
  if enriched.length ≥ 3 then enriched.take 3
  else
    let base := if enriched.isEmpty then [sarajevoFallback] else enriched
    base ++ List.replicate (3 - base.length) (base.headD sarajevoFallback)

/-- One plan of the regional branch (no feasibility check here). -/
def regionalPlanFor (env : Env) (fd : TripFormState) (forceTemplates : Bool)
    (originGeo : GeoLocation) (days : ℤ) (tier : Tier) (cand : Enriched) : TripPlan :=
  let title := cand.city ++ " — " ++ tier.cap
  let routeInfo := resolveRouteSingle env originGeo cand.lat cand.lng
  let distance_km := routeInfo.distance_m.getD 0 / 1000
  let travel_time_h := routeInfo.duration_s.getD 0 / 3600
  let cost := estimateCosts fd distance_km (max 1 days) tier
  let syn : List ItineraryDay × List (String × String) :=
    if forceTemplates then ([], [])
    else
      let g := env.geminiItinerary
        { destinations := [cand.city], days := days, grade := fd.grade_level,
          focus := fd.focus, tier := tier.str, origin := originGeo.name,
          travelTimeHours := travel_time_h,
          poiList := cand.pois.map (fun p => (p.label, p.url)), notes := fd.notes }
      (if g.itinerary.length > 0 then g.itinerary else [],
       g.poi_descriptions.foldl (fun m d => mapSet m d.1 d.2) [])
  let itinerary := syn.1
  let sources := sourcesFromPois cand.pois syn.2 ++ [originSourceLink originGeo]
  let uniqueSources := dedupSources sources
  { title := title
    reliability := computeReliability uniqueSources
    destination := cand.city
    number_of_days := days
    itinerary := if itinerary.length ≠ 0 then itinerary
                 else [{ day := 1, activity := "Fallback itinerary." }]
    estimated_cost_per_student := jsNumToString cost.breakdown.per_student ++ " EUR"
    cost_breakdown := cost.breakdown
    distance_km := safe distance_km
    travel_time_h := safe travel_time_h
    accompanying_teachers := fd.teachers
    why := "Fits focus: " ++ fd.focus ++ "."
    sources := uniqueSources.take 6
    polyline := routeInfo.polyline }

/-- The multi-stop branch of `buildThreePlans`: one plan per tier for the
same resolved route, assembled in tier order (an error aborts the rest,
exactly like a thrown exception in the source loop). -/
def multiThree (env : Env) (fd : TripFormState) (forceTemplates : Bool)
    (originGeo : GeoLocation) (stops : List GeoLocation) (days : ℤ) :
    Except BuildError PlannerResult := do
  let p1 ← multiPlanFor env fd forceTemplates originGeo stops days .budget
  let p2 ← multiPlanFor env fd forceTemplates originGeo stops days .balanced
  let p3 ← multiPlanFor env fd forceTemplates originGeo stops days .premium
  pure { plans := [p1, p2, p3], origin := some originGeo }

/-- The regional branch of `buildThreePlans`: enrich the candidates, pick
three seeds, and build one plan per tier/seed pair (`i = 0, 1, 2`). -/
def regionalThree (env : Env) (fd : TripFormState) (forceTemplates : Bool)
    (originGeo : GeoLocation) (days : ℤ) (candidates : List Candidate) : PlannerResult :=
  let enriched := enrichLoop env fd forceTemplates candidates []
  let chosen := chooseThree enriched
  { plans :=
      [regionalPlanFor env fd forceTemplates originGeo days .budget
         (chosen.getD 0 sarajevoFallback),
       regionalPlanFor env fd forceTemplates originGeo days .balanced
         (chosen.getD 1 sarajevoFallback),
       regionalPlanFor env fd forceTemplates originGeo days .premium
         (chosen.getD 2 sarajevoFallback)],
    origin := some originGeo }

/-- The mode selection and plan construction of `buildThreePlans` after
validation: explicit destinations that resolve to at least one stop give
the multi-stop mode; otherwise the regional mode runs — with the
suggested/curated candidates when no destination text was given, and with
no candidates at all when destinations were given but none resolved. -/
def buildCore (env : Env) (fd : TripFormState) (forceTemplates : Bool) (days : ℤ) :
    Except BuildError PlannerResult :=
  let originGeo := resolveOrigin env fd
  let vdests := validDestinations fd
  if vdests.length > 0 then
    let rs := resolveStops env vdests
    if rs.length > 0 then multiThree env fd forceTemplates originGeo rs days
    else .ok (regionalThree env fd forceTemplates originGeo days [])
  else
    .ok (regionalThree env fd forceTemplates originGeo days
      (suggestedCandidates env fd originGeo forceTemplates))

/-- `buildThreePlans` (planner service module): date validation, then the
mode-dependent plan construction. -/
def buildThreePlans (env : Env) (fd : TripFormState) (forceTemplates : Bool) :
    Except BuildError PlannerResult :=
  match parseDateNormalized (some fd.dep_date), parseDateNormalized (some fd.ret_date) with
  | some dep, some ret =>
    if dep.epochDays > ret.epochDays then .error .depAfterRet
    else
      if strIncludes (jsToLower fd.trip_type) "multi" = true ∧ daysInclusive dep ret < 2 then
        .error .multiTooShort
      else buildCore env fd forceTemplates (daysInclusive dep ret)
  | _, _ => .error .invalidDates

/- ===========================
   Arithmetic facts about `safe`
   =========================== -/

/-- A rational that is an exact number of cents (two decimal places). -/
def IsCents (q : ℚ) : Prop := ∃ k : ℤ, q = (k : ℚ) / 100

theorem isCents_safe (x : ℚ) : IsCents (safe x) :=
  ⟨jsRound ((x + jsEpsilon) * 100), rfl⟩

theorem isCents_add {a b : ℚ} (ha : IsCents a) (hb : IsCents b) : IsCents (a + b) := by
  obtain ⟨k, rfl⟩ := ha
  obtain ⟨l, rfl⟩ := hb
  exact ⟨k + l, by push_cast; ring⟩

/-- Adding an exact number of cents commutes with `safe`. -/
theorem safe_add_int100 (x : ℚ) (k : ℤ) :
    safe (x + (k : ℚ) / 100) = safe x + (k : ℚ) / 100 := by
  unfold safe
  rw [jsRound_eq_round, jsRound_eq_round]
  have h : (x + (k : ℚ) / 100 + jsEpsilon) * 100 = (x + jsEpsilon) * 100 + (k : ℚ) := by
    ring
  rw [h]
  rw [show ((k : ℚ)) = ((k : ℤ) : ℚ) from rfl, round_add_int]
  push_cast
  ring

theorem safe_add_cents (x : ℚ) {c : ℚ} (hc : IsCents c) : safe (x + c) = safe x + c := by
  obtain ⟨k, rfl⟩ := hc
  exact safe_add_int100 x k

theorem safe_zero : safe 0 = 0 := by with_unfolding_all rfl

/-- `safe` is the identity on exact cent amounts (`Number.EPSILON` is far
below half a cent). -/
theorem safe_cents {q : ℚ} (h : IsCents q) : safe q = q := by
  obtain ⟨k, rfl⟩ := h
  have h0 := safe_add_int100 0 k
  rw [zero_add] at h0
  rw [h0, safe_zero, zero_add]

theorem safe_mono {x y : ℚ} (h : x ≤ y) : safe x ≤ safe y := by
  unfold safe
  rw [jsRound_eq_round, jsRound_eq_round, round_eq, round_eq]
  have hf : ⌊(x + jsEpsilon) * 100 + 1 / 2⌋ ≤ ⌊(y + jsEpsilon) * 100 + 1 / 2⌋ :=
    Int.floor_mono (by linarith)
  rw [div_le_div_iff_of_pos_right (by norm_num : (0 : ℚ) < 100)]
  exact_mod_cast hf

/-- Core identity behind the `total` invariant: the source sums the
unrounded transport/accommodation/meals/entry values plus the already
rounded `extras`, while the reported line items are individually rounded;
both roundings agree because every line item other than transport is an
exact number of cents and rounding commutes with adding cents. -/
theorem total_eq_sum_core (T A M E aF lT cont : ℚ)
    (hA : IsCents A) (hM : IsCents M) (hE : IsCents E)
    (haF : IsCents aF) (hlT : IsCents lT) (hcont : IsCents cont) :
    safe (T + A + M + E + safe (aF + lT + cont)) =
      safe (safe T + safe A + safe M + safe E + aF + lT + cont) := by
  have hsum3 : IsCents (aF + lT + cont) := isCents_add (isCents_add haF hlT) hcont
  have hextras : safe (aF + lT + cont) = aF + lT + cont := safe_cents hsum3
  have hC : IsCents (A + M + E + (aF + lT + cont)) :=
    isCents_add (isCents_add (isCents_add hA hM) hE) hsum3
  have hL : T + A + M + E + safe (aF + lT + cont) = T + (A + M + E + (aF + lT + cont)) := by
    rw [hextras]; ring
  have hR : safe T + safe A + safe M + safe E + aF + lT + cont =
      safe T + (A + M + E + (aF + lT + cont)) := by
    rw [safe_cents hA, safe_cents hM, safe_cents hE]; ring
  rw [hL, hR, safe_add_cents _ hC, safe_add_cents _ hC, safe_cents (isCents_safe T)]

theorem isCents_rate_mul (r : ℤ) (p : ℕ) (n : ℤ) :
    IsCents ((r : ℚ) * (p : ℚ) * (n : ℚ)) := by
  refine ⟨100 * r * p * n, ?_⟩
  push_cast
  ring

/-- The accommodation line is an exact number of cents for every tier. -/
theorem isCents_accom (t : Tier) (p : ℕ) (n : ℤ) :
    IsCents ((match t with
              | .budget => RATES_accommodation_budget
              | .premium => RATES_accommodation_premium
              | .balanced => RATES_accommodation_balanced) * (p : ℚ) * (n : ℚ)) := by
  cases t
  · have h : RATES_accommodation_budget = ((25 : ℤ) : ℚ) := by
      norm_num [RATES_accommodation_budget]
    rw [h]
    exact isCents_rate_mul 25 p n
  · have h : RATES_accommodation_balanced = ((45 : ℤ) : ℚ) := by
      norm_num [RATES_accommodation_balanced]
    rw [h]
    exact isCents_rate_mul 45 p n
  · have h : RATES_accommodation_premium = ((80 : ℤ) : ℚ) := by
      norm_num [RATES_accommodation_premium]
    rw [h]
    exact isCents_rate_mul 80 p n

theorem isCents_meals (p : ℕ) (d : ℤ) :
    IsCents (RATES_meals_per_person_per_day * (p : ℚ) * (d : ℚ)) := by
  have h : RATES_meals_per_person_per_day = ((15 : ℤ) : ℚ) := by
    norm_num [RATES_meals_per_person_per_day]
  rw [h]
  exact isCents_rate_mul 15 p d

theorem isCents_entry (s t : ℕ) :
    IsCents (RATES_entry_fee_per_student_avg * (s : ℚ) +
             RATES_entry_fee_per_student_avg * (t : ℚ) * RATES_teacher_discount) := by
  refine ⟨700 * s + 350 * t, ?_⟩
  simp only [RATES_entry_fee_per_student_avg, RATES_teacher_discount]
  push_cast
  norm_num
  ring

/-- C3.  For every request, distance, day count and tier, the
`CostBreakdown` returned by `estimateCosts` satisfies: `total` equals the
rounded sum of the seven line items `transport`, `accommodation`, `meals`,
`entry_fees`, `activity_fees`, `local_transport`, `contingency` (each line
item being rounded to 2 decimal places before the sum, which is rounded
again), and `per_student` equals `total / max(1, students)` rounded to 2
decimal places. -/
theorem c3_cost_breakdown_invariant (fd : TripFormState) (distance_km : ℚ)
    (days : ℤ) (tier : Tier) :
    (estimateCosts fd distance_km days tier).breakdown.total =
      safe ((estimateCosts fd distance_km days tier).breakdown.transport +
            (estimateCosts fd distance_km days tier).breakdown.accommodation +
            (estimateCosts fd distance_km days tier).breakdown.meals +
            (estimateCosts fd distance_km days tier).breakdown.entry_fees +
            (estimateCosts fd distance_km days tier).breakdown.activity_fees +
            (estimateCosts fd distance_km days tier).breakdown.local_transport +
            (estimateCosts fd distance_km days tier).breakdown.contingency) ∧
    (estimateCosts fd distance_km days tier).breakdown.per_student =
      safe ((estimateCosts fd distance_km days tier).breakdown.total /
            ((max 1 fd.num_students : ℕ) : ℚ)) := by
  simp only [estimateCosts]
  refine ⟨?_, trivial⟩
  refine total_eq_sum_core _ _ _ _ _ _ _ (isCents_accom tier _ _) (isCents_meals _ _)
    (isCents_entry _ _) (isCents_safe _) (isCents_safe _) (isCents_safe _)

/-- Strict growth of the rounded total when only the accommodation rate
grows by at least 20 EUR/person/night (all other inputs fixed): the
contingency grows weakly with its base, and the accommodation gap
survives the outer rounding because every non-transport summand is an
exact number of cents. -/
theorem total_lt_of_rate_lt (T M E aF lT : ℚ) (p : ℕ) (n : ℤ) (r1 r2 : ℚ)
    (hM : IsCents M) (hE : IsCents E) (haF : IsCents aF) (hlT : IsCents lT)
    (hA1 : IsCents (r1 * (p : ℚ) * (n : ℚ))) (hA2 : IsCents (r2 * (p : ℚ) * (n : ℚ)))
    (hp : 1 ≤ p) (hn : 1 ≤ n) (hr : r1 + 20 ≤ r2) :
    safe (T + r1 * (p : ℚ) * (n : ℚ) + M + E +
          safe (aF + lT + safe ((T + r1 * (p : ℚ) * (n : ℚ) + M + E) * 0.05))) <
      safe (T + r2 * (p : ℚ) * (n : ℚ) + M + E +
            safe (aF + lT + safe ((T + r2 * (p : ℚ) * (n : ℚ) + M + E) * 0.05))) := by
  have hpq : (1 : ℚ) ≤ (p : ℚ) := by exact_mod_cast hp
  have hnq : (1 : ℚ) ≤ (n : ℚ) := by exact_mod_cast hn
  have hpn : (1 : ℚ) ≤ (p : ℚ) * (n : ℚ) := one_le_mul_of_one_le_of_one_le hpq hnq
  have hAgap : r1 * (p : ℚ) * (n : ℚ) + 20 ≤ r2 * (p : ℚ) * (n : ℚ) := by
    have h20 : (20 : ℚ) * 1 ≤ (r2 - r1) * ((p : ℚ) * (n : ℚ)) := by
      apply mul_le_mul (by linarith) hpn (by norm_num) (by linarith)
    nlinarith
  have hcont : safe ((T + r1 * (p : ℚ) * (n : ℚ) + M + E) * 0.05) ≤
      safe ((T + r2 * (p : ℚ) * (n : ℚ) + M + E) * 0.05) := by
    apply safe_mono
    nlinarith
  have hc1 : IsCents (safe ((T + r1 * (p : ℚ) * (n : ℚ) + M + E) * 0.05)) := isCents_safe _
  have hc2 : IsCents (safe ((T + r2 * (p : ℚ) * (n : ℚ) + M + E) * 0.05)) := isCents_safe _
  have hx1 : IsCents (aF + lT + safe ((T + r1 * (p : ℚ) * (n : ℚ) + M + E) * 0.05)) :=
    isCents_add (isCents_add haF hlT) hc1
  have hx2 : IsCents (aF + lT + safe ((T + r2 * (p : ℚ) * (n : ℚ) + M + E) * 0.05)) :=
    isCents_add (isCents_add haF hlT) hc2
  rw [safe_cents hx1, safe_cents hx2]
  have hS1 : IsCents (r1 * (p : ℚ) * (n : ℚ) + M + E +
      (aF + lT + safe ((T + r1 * (p : ℚ) * (n : ℚ) + M + E) * 0.05))) :=
    isCents_add (isCents_add (isCents_add hA1 hM) hE) hx1
  have hS2 : IsCents (r2 * (p : ℚ) * (n : ℚ) + M + E +
      (aF + lT + safe ((T + r2 * (p : ℚ) * (n : ℚ) + M + E) * 0.05))) :=
    isCents_add (isCents_add (isCents_add hA2 hM) hE) hx2
  have e1 : T + r1 * (p : ℚ) * (n : ℚ) + M + E +
      (aF + lT + safe ((T + r1 * (p : ℚ) * (n : ℚ) + M + E) * 0.05)) =
      T + (r1 * (p : ℚ) * (n : ℚ) + M + E +
        (aF + lT + safe ((T + r1 * (p : ℚ) * (n : ℚ) + M + E) * 0.05))) := by ring
  have e2 : T + r2 * (p : ℚ) * (n : ℚ) + M + E +
      (aF + lT + safe ((T + r2 * (p : ℚ) * (n : ℚ) + M + E) * 0.05)) =
      T + (r2 * (p : ℚ) * (n : ℚ) + M + E +
        (aF + lT + safe ((T + r2 * (p : ℚ) * (n : ℚ) + M + E) * 0.05))) := by ring
  rw [e1, e2, safe_add_cents _ hS1, safe_add_cents _ hS2]
  have := hcont
  linarith

/-- C4.  For every fixed request, distance and day count `≥ 2`, the
`total` of `estimateCosts` is strictly increasing across tiers:
`total(budget) < total(balanced) < total(premium)` (the accommodation
rate grows with the tier, everything else held equal). -/
theorem c4_total_strictly_increasing (fd : TripFormState) (distance_km : ℚ)
    (days : ℤ) (h2 : 2 ≤ days) :
    (estimateCosts fd distance_km days .budget).breakdown.total <
      (estimateCosts fd distance_km days .balanced).breakdown.total ∧
    (estimateCosts fd distance_km days .balanced).breakdown.total <
      (estimateCosts fd distance_km days .premium).breakdown.total := by
  have hp : 1 ≤ fd.num_students +
      max (if fd.teachers = "" then 0
           else ((fd.teachers.splitOn ",").filter (fun s => (jsTrim s).length > 0)).length)
          (max 1 ((fd.num_students + 14) / 15)) := by
    have h1 : 1 ≤ max (if fd.teachers = "" then 0
           else ((fd.teachers.splitOn ",").filter (fun s => (jsTrim s).length > 0)).length)
          (max 1 ((fd.num_students + 14) / 15)) :=
      Nat.le_trans (Nat.le_max_left 1 _) (Nat.le_max_right _ _)
    exact Nat.le_trans h1 (Nat.le_add_left _ _)
  have hn : (1 : ℤ) ≤ max 0 (days - 1) :=
    le_trans (by omega) (le_max_right 0 (days - 1))
  constructor
  · simp only [estimateCosts]
    refine total_lt_of_rate_lt _ _ _ _ _ _ _ _ _ (isCents_meals _ _) (isCents_entry _ _)
      (isCents_safe _) (isCents_safe _) (isCents_accom .budget _ _)
      (isCents_accom .balanced _ _) hp hn ?_
    norm_num [RATES_accommodation_budget, RATES_accommodation_balanced]
  · simp only [estimateCosts]
    refine total_lt_of_rate_lt _ _ _ _ _ _ _ _ _ (isCents_meals _ _) (isCents_entry _ _)
      (isCents_safe _) (isCents_safe _) (isCents_accom .balanced _ _)
      (isCents_accom .premium _ _) hp hn ?_
    norm_num [RATES_accommodation_balanced, RATES_accommodation_premium]

/-- Witness for C4 at a concrete request. -/
def fdCostW : TripFormState :=
  { origin := "", destinations := [], scope := .regional, trip_type := "multi-day",
    grade_level := "8", num_students := 14, teachers := "", transport_pref := .bus,
    dep_date := "2025-05-01", ret_date := "2025-05-05", budget := "", focus := "history",
    notes := "" }

theorem c4_total_strictly_increasing_witness :
    (estimateCosts fdCostW 0 5 .budget).breakdown.total <
      (estimateCosts fdCostW 0 5 .balanced).breakdown.total ∧
    (estimateCosts fdCostW 0 5 .balanced).breakdown.total <
      (estimateCosts fdCostW 0 5 .premium).breakdown.total :=
  c4_total_strictly_increasing fdCostW 0 5 (by norm_num)

/-- C5 (counterexample).  The `contingency` line item is 5% of a base
that includes the accommodation total, so it does change with the tier:
at the concrete request `fdCostW` (14 students, bus, distance 0, 2 days)
the budget tier yields 51.83 and the premium tier 93.08. -/
theorem c5_contingency_depends_on_tier :
    (estimateCosts fdCostW 0 2 .budget).breakdown.contingency = 5183 / 100 ∧
    (estimateCosts fdCostW 0 2 .premium).breakdown.contingency = 9308 / 100 ∧
    (estimateCosts fdCostW 0 2 .budget).breakdown.contingency ≠
      (estimateCosts fdCostW 0 2 .premium).breakdown.contingency := by
  have h1 : (estimateCosts fdCostW 0 2 .budget).breakdown.contingency = 5183 / 100 := by
    with_unfolding_all rfl
  have h2 : (estimateCosts fdCostW 0 2 .premium).breakdown.contingency = 9308 / 100 := by
    with_unfolding_all rfl
  refine ⟨h1, h2, ?_⟩
  rw [h1, h2]
  norm_num

/-- C5 (amended).  Changing only the tier argument of `estimateCosts`
leaves `transport`, `meals`, `entry_fees`, `activity_fees`,
`local_transport` (and the transport note) unchanged; besides the
accommodation outputs, only `contingency` (whose 5% base includes the
accommodation total) and the derived `total` / `per_student` can differ. -/
theorem c5_tier_frame (fd : TripFormState) (distance_km : ℚ) (days : ℤ)
    (t₁ t₂ : Tier) :
    (estimateCosts fd distance_km days t₁).breakdown.transport =
      (estimateCosts fd distance_km days t₂).breakdown.transport ∧
    (estimateCosts fd distance_km days t₁).breakdown.meals =
      (estimateCosts fd distance_km days t₂).breakdown.meals ∧
    (estimateCosts fd distance_km days t₁).breakdown.entry_fees =
      (estimateCosts fd distance_km days t₂).breakdown.entry_fees ∧
    (estimateCosts fd distance_km days t₁).breakdown.activity_fees =
      (estimateCosts fd distance_km days t₂).breakdown.activity_fees ∧
    (estimateCosts fd distance_km days t₁).breakdown.local_transport =
      (estimateCosts fd distance_km days t₂).breakdown.local_transport ∧
    (estimateCosts fd distance_km days t₁).breakdown.transport_note =
      (estimateCosts fd distance_km days t₂).breakdown.transport_note := by
  cases t₁ <;> cases t₂ <;> refine ⟨?_, ?_, ?_, ?_, ?_, ?_⟩ <;> simp only [estimateCosts]

theorem sourceBonus_nonneg (s : SourceLink) : 0 ≤ sourceBonus s := by
  unfold sourceBonus
  split_ifs <;> norm_num

theorem foldl_bonus_le (l : List SourceLink) :
    ∀ init : ℤ, init ≤ l.foldl (fun score s => score + sourceBonus s) init := by
  induction l with
  | nil => intro init; exact le_refl init
  | cons x xs ih =>
      intro init
      calc init ≤ init + sourceBonus x := by have := sourceBonus_nonneg x; linarith
        _ ≤ xs.foldl (fun score s => score + sourceBonus s) (init + sourceBonus x) := ih _

/-- C7.  `computeReliability` returns exactly 42 on the empty source
list; on every non-empty list the result lies between 40 (base score,
all per-source bonuses are non-negative) and the hard cap 98. -/
theorem c7_reliability_bounds (sources : List SourceLink) :
    (sources = [] → computeReliability sources = 42) ∧
    (sources ≠ [] →
      40 ≤ computeReliability sources ∧ computeReliability sources ≤ 98) := by
  constructor
  · intro h
    subst h
    rfl
  · intro h
    unfold computeReliability
    rw [if_neg (by simpa using h)]
    refine ⟨le_min (by norm_num) (foldl_bonus_le sources 40), min_le_left _ _⟩

/-- A concrete source link used by witnesses. -/
def srcLinkW : SourceLink :=
  { url := some "https://www.geonames.org/3191281", title := "Sarajevo",
    source := "geonames", verified := true }

/-- Witness for C7 on a concrete non-empty source list (and the empty
list). -/
theorem c7_reliability_bounds_witness :
    (40 ≤ computeReliability [srcLinkW] ∧ computeReliability [srcLinkW] ≤ 98) ∧
    computeReliability [] = 42 :=
  ⟨(c7_reliability_bounds [srcLinkW]).2 (by simp),
   (c7_reliability_bounds []).1 rfl⟩

/-- On a list whose keys are pairwise distinct, `findIndex` of the key of
the element at position `i` is `i` itself. -/
theorem findIdx_srcKey_of_pairwise :
    ∀ (d : List SourceLink), d.Pairwise (fun a b => srcKey a ≠ srcKey b) →
      ∀ (i : ℕ) (a : SourceLink), d.get? i = some a →
        d.findIdx (fun t => srcKey t = srcKey a) = i := by
  intro d
  induction d with
  | nil =>
      intro _ i a h
      simp at h
  | cons x xs ih =>
      intro hp i a hget
      cases i with
      | zero =>
          rw [List.get?_cons_zero, Option.some_inj] at hget
          subst hget
          rw [List.findIdx_cons]
          simp
      | succ n =>
          rw [List.get?_cons_succ] at hget
          have hmem : a ∈ xs := List.get?_mem hget
          have hne : srcKey x ≠ srcKey a := (List.pairwise_cons.mp hp).1 a hmem
          rw [List.findIdx_cons]
          have hfalse : (decide (srcKey x = srcKey a)) = false := by
            simp [hne]
          rw [hfalse]
          simp only [cond_false]
          rw [ih (List.pairwise_cons.mp hp).2 n a hget]

/-- The deduplicated list has pairwise distinct `(url, title)` keys. -/
theorem dedupSources_keys_pairwise (l : List SourceLink) :
    (dedupSources l).Pairwise (fun a b => srcKey a ≠ srcKey b) := by
  unfold dedupSources
  rw [List.pairwise_map]
  have h1 : (l.enum).Pairwise (fun p q : ℕ × SourceLink => p.1 < q.1) := by
    have h0 : ((l.enum).map Prod.fst).Pairwise (fun a b : ℕ => a < b) := by
      rw [List.enum_map_fst]
      exact List.pairwise_lt_range l.length
    exact List.pairwise_map.mp h0
  refine List.Pairwise.imp_of_mem ?_ (List.Pairwise.sublist (List.filter_sublist _) h1)
  intro a b ha hb hlt hkey
  have ha2 := of_decide_eq_true (List.mem_filter.mp ha).2
  have hb2 := of_decide_eq_true (List.mem_filter.mp hb).2
  have hpred : (fun t => decide (srcKey t = srcKey a.2)) =
      (fun t => decide (srcKey t = srcKey b.2)) := by
    funext t
    rw [hkey]
  rw [hpred] at ha2
  omega

/-- Deduplication fixes every list with pairwise distinct keys. -/
theorem dedupSources_of_pairwise {d : List SourceLink}
    (hd : d.Pairwise (fun a b => srcKey a ≠ srcKey b)) : dedupSources d = d := by
  unfold dedupSources
  have hall : ∀ p ∈ d.enum,
      (decide (d.findIdx (fun t => srcKey t = srcKey p.2) = p.1)) = true := by
    intro p hp
    rw [decide_eq_true_eq]
    have hg : d[p.1]? = some p.2 := List.mem_enum_iff_getElem?.mp hp
    rw [← List.get?_eq_getElem?] at hg
    exact findIdx_srcKey_of_pairwise d hd p.1 p.2 hg
  rw [List.filter_eq_self.mpr hall, List.enum_map_snd]

/-- C9.  The source-merge deduplication step (keep each `SourceLink`
whose `(url, title)` pair first occurs at its own index) is idempotent:
applying it to its own output returns that output unchanged. -/
theorem c9_dedup_idempotent (l : List SourceLink) :
    dedupSources (dedupSources l) = dedupSources l :=
  dedupSources_of_pairwise (dedupSources_keys_pairwise l)

theorem isJsSpace_eq_false_of_isDigit (c : Char) (h : c.isDigit = true) :
    isJsSpace c = false := by
  unfold isJsSpace
  rw [decide_eq_false_iff_not]
  intro hmem
  simp only [List.mem_cons, List.not_mem_nil, or_false] at hmem
  rcases hmem with rfl | rfl | rfl | rfl | rfl | rfl | rfl | rfl | rfl | rfl | rfl | rfl |
    rfl | rfl | rfl | rfl | rfl | rfl | rfl | rfl | rfl | rfl | rfl | rfl | rfl <;>
    exact absurd h (by decide)

theorem dropWhile_eq_self_of_all (l : List Char)
    (h : ∀ c ∈ l, isJsSpace c = false) : l.dropWhile isJsSpace = l := by
  cases l with
  | nil => rfl
  | cons a t =>
      rw [List.dropWhile_cons_of_neg]
      rw [h a (List.mem_cons_self a t)]
      exact Bool.false_ne_true

theorem jsTrim_eq_self (s : String) (h : ∀ c ∈ s.data, isJsSpace c = false) :
    jsTrim s = s := by
  unfold jsTrim
  rw [dropWhile_eq_self_of_all s.data h]
  rw [dropWhile_eq_self_of_all s.data.reverse
    (fun c hc => h c (List.mem_reverse.mp hc))]
  rw [List.reverse_reverse]

/-- Every character of a string matching `^\d{4}-\d{2}-\d{2}$` is a digit
or a dash, hence not whitespace. -/
theorem isoDate_no_space (s : String) (h : isIsoDate s = true) :
    ∀ c ∈ s.data, isJsSpace c = false := by
  unfold isIsoDate at h
  intro c hc
  rcases hd : s.data with _ | ⟨a, rest⟩
  · rw [hd] at hc
    exact absurd hc (List.not_mem_nil c)
  · rw [hd] at h hc
    revert h hc
    match rest with
    | [b, c2, d, e, f, g, h8, i, j] =>
        intro hc h
        replace h : (a.isDigit && b.isDigit && c2.isDigit && d.isDigit &&
            decide (e = '-') && f.isDigit && g.isDigit && decide (h8 = '-') &&
            i.isDigit && j.isDigit) = true := h
        simp only [Bool.and_eq_true] at h
        obtain ⟨⟨⟨⟨⟨⟨⟨⟨⟨ha, hb⟩, hc2⟩, hdd⟩, he⟩, hf⟩, hg⟩, hh⟩, hi⟩, hj⟩ := h
        simp only [List.mem_cons, List.not_mem_nil, or_false] at hc
        rcases hc with rfl | rfl | rfl | rfl | rfl | rfl | rfl | rfl | rfl | rfl
        · exact isJsSpace_eq_false_of_isDigit _ ha
        · exact isJsSpace_eq_false_of_isDigit _ hb
        · exact isJsSpace_eq_false_of_isDigit _ hc2
        · exact isJsSpace_eq_false_of_isDigit _ hdd
        · rw [of_decide_eq_true he]; decide
        · exact isJsSpace_eq_false_of_isDigit _ hf
        · exact isJsSpace_eq_false_of_isDigit _ hg
        · rw [of_decide_eq_true hh]; decide
        · exact isJsSpace_eq_false_of_isDigit _ hi
        · exact isJsSpace_eq_false_of_isDigit _ hj
    | [] => intro _ h; exact absurd h Bool.false_ne_true
    | [b] => intro _ h; exact absurd h Bool.false_ne_true
    | [b, c2] => intro _ h; exact absurd h Bool.false_ne_true
    | [b, c2, d] => intro _ h; exact absurd h Bool.false_ne_true
    | [b, c2, d, e] => intro _ h; exact absurd h Bool.false_ne_true
    | [b, c2, d, e, f] => intro _ h; exact absurd h Bool.false_ne_true
    | [b, c2, d, e, f, g] => intro _ h; exact absurd h Bool.false_ne_true
    | [b, c2, d, e, f, g, h8] => intro _ h; exact absurd h Bool.false_ne_true
    | [b, c2, d, e, f, g, h8, i] => intro _ h; exact absurd h Bool.false_ne_true
    | b :: c2 :: d :: e :: f :: g :: h8 :: i :: j :: k :: rest2 =>
        intro _ h; exact absurd h Bool.false_ne_true

/-- C10.  Any input matching `^\d{4}-\d{2}-\d{2}$` short-circuits
`normalizeDate` into the ISO branch, which only rearranges the digits and
bypasses the month/day/leap validation applied to every other format: for
instance `'2024-13-45'` yields `'45.13.2024'`, a string that
`normalizeDate` itself rejects when given directly, and
`parseDateNormalized` accepts the invalid calendar date. -/
theorem c10_normalizeDate_iso_bypasses_validation (s : String)
    (h : isIsoDate s = true) :
    normalizeDate s = some (isoRearrange s) ∧
    normalizeDate ("2024-13-45") = some ("45.13.2024") ∧
    normalizeDate ("45.13.2024") = none ∧
    (parseDateNormalized (some "2024-13-45")).isSome = true := by
  refine ⟨?_, by decide, by decide, ?_⟩
  · have hne : s ≠ "" := by
      intro he
      rw [he] at h
      exact absurd h (by decide)
    have htrim : jsTrim s = s := jsTrim_eq_self s (isoDate_no_space s h)
    unfold normalizeDate
    rw [if_neg hne, htrim, if_pos h]
  · with_unfolding_all rfl

set_option maxRecDepth 4000 in
/-- Witness for C10 at the concrete ISO-shaped input `'2024-13-45'`. -/
theorem c10_normalizeDate_iso_bypasses_validation_witness :
    normalizeDate ("2024-13-45") = some (isoRearrange ("2024-13-45")) ∧
    normalizeDate ("2024-13-45") = some ("45.13.2024") ∧
    normalizeDate ("45.13.2024") = none ∧
    (parseDateNormalized (some "2024-13-45")).isSome = true :=
  c10_normalizeDate_iso_bypasses_validation ("2024-13-45") (by decide)

/- ===========================
   Behaviour of buildThreePlans
   =========================== -/

/-- `multiPlanFor` can only fail with the infeasibility error, and only
when twice the travel time exceeds `days × 9`. -/
theorem multiPlanFor_error_eq {env : Env} {fd : TripFormState} {ft : Bool}
    {o : GeoLocation} {stops : List GeoLocation} {days : ℤ} {tier : Tier}
    {e : BuildError}
    (h : multiPlanFor env fd ft o stops days tier = .error e) :
    (resolveRouteMulti env o stops).duration_s.getD 0 / 3600 * 2 > (days : ℚ) * 9 ∧
    e = .infeasible
          (jsRound ((resolveRouteMulti env o stops).duration_s.getD 0 / 3600 * 2)) days := by
  simp only [multiPlanFor] at h
  split at h
  · next hc =>
      refine ⟨hc, ?_⟩
      injection h with h2
      exact h2.symm
  · exact absurd h (by simp)

/-- When the route is feasible, `multiPlanFor` succeeds. -/
theorem multiPlanFor_ok_of_feasible {env : Env} {fd : TripFormState} {ft : Bool}
    {o : GeoLocation} {stops : List GeoLocation} {days : ℤ} (tier : Tier)
    (hc : ¬ (resolveRouteMulti env o stops).duration_s.getD 0 / 3600 * 2 > (days : ℚ) * 9) :
    ∃ p, multiPlanFor env fd ft o stops days tier = .ok p := by
  simp only [multiPlanFor]
  rw [if_neg hc]
  exact ⟨_, rfl⟩

/-- A successful multi-stop branch carries exactly 3 plans. -/
theorem multiThree_ok_len {env : Env} {fd : TripFormState} {ft : Bool}
    {o : GeoLocation} {stops : List GeoLocation} {days : ℤ} {r : PlannerResult}
    (h : multiThree env fd ft o stops days = .ok r) : r.plans.length = 3 := by
  unfold multiThree at h
  cases h1 : multiPlanFor env fd ft o stops days .budget with
  | error e => rw [h1] at h; exact absurd h (by simp [Bind.bind, Except.bind])
  | ok p1 =>
    rw [h1] at h
    simp only [Bind.bind, Except.bind] at h
    cases h2 : multiPlanFor env fd ft o stops days .balanced with
    | error e => rw [h2] at h; exact absurd h (by simp)
    | ok p2 =>
      rw [h2] at h
      simp only [] at h
      cases h3 : multiPlanFor env fd ft o stops days .premium with
      | error e => rw [h3] at h; exact absurd h (by simp)
      | ok p3 =>
        rw [h3] at h
        simp only [pure, Except.pure] at h
        injection h with h4
        rw [← h4]
        rfl

/-- The multi-stop branch can only fail with the infeasibility error. -/
theorem multiThree_error_infeasible {env : Env} {fd : TripFormState} {ft : Bool}
    {o : GeoLocation} {stops : List GeoLocation} {days : ℤ} {e : BuildError}
    (h : multiThree env fd ft o stops days = .error e) :
    ∃ hh dd, e = BuildError.infeasible hh dd := by
  unfold multiThree at h
  cases h1 : multiPlanFor env fd ft o stops days .budget with
  | error e1 =>
      rw [h1] at h
      simp only [Bind.bind, Except.bind] at h
      injection h with he
      obtain ⟨_, he1⟩ := multiPlanFor_error_eq h1
      exact ⟨_, _, by rw [← he, he1]⟩
  | ok p1 =>
    rw [h1] at h
    simp only [Bind.bind, Except.bind] at h
    cases h2 : multiPlanFor env fd ft o stops days .balanced with
    | error e2 =>
        rw [h2] at h
        injection h with he
        obtain ⟨_, he2⟩ := multiPlanFor_error_eq h2
        exact ⟨_, _, by rw [← he, he2]⟩
    | ok p2 =>
      rw [h2] at h
      simp only [] at h
      cases h3 : multiPlanFor env fd ft o stops days .premium with
      | error e3 =>
          rw [h3] at h
          injection h with he
          obtain ⟨_, he3⟩ := multiPlanFor_error_eq h3
          exact ⟨_, _, by rw [← he, he3]⟩
      | ok p3 =>
          rw [h3] at h
          exact absurd h (by simp [pure, Except.pure])

/-- The regional branch always returns exactly 3 plans. -/
theorem regionalThree_len (env : Env) (fd : TripFormState) (ft : Bool)
    (o : GeoLocation) (days : ℤ) (cands : List Candidate) :
    (regionalThree env fd ft o days cands).plans.length = 3 := rfl

/-- Validation passed: `buildThreePlans` reduces to `buildCore`. -/
theorem buildThreePlans_eq_core {env : Env} {fd : TripFormState} {ft : Bool}
    {dep ret : JsDate}
    (hdep : parseDateNormalized (some fd.dep_date) = some dep)
    (hret : parseDateNormalized (some fd.ret_date) = some ret)
    (hord : ¬ dep.epochDays > ret.epochDays)
    (hmulti : ¬ (strIncludes (jsToLower fd.trip_type) "multi" = true ∧
                 daysInclusive dep ret < 2)) :
    buildThreePlans env fd ft = buildCore env fd ft (daysInclusive dep ret) := by
  unfold buildThreePlans
  rw [hdep, hret]
  simp only [if_neg hord, if_neg hmulti]

/-- C1.  For every request that passes input validation (both dates
parse, departure not after return, at least 2 days when the trip type
contains `'multi'`) and does not trigger the infeasibility error,
`buildThreePlans` returns a `PlannerResult` with exactly 3 plans — for
every combination of provider outcomes (`env`) and for `forceTemplates`
arbitrary, including all providers failing. -/
theorem c1_exactly_three_plans (env : Env) (fd : TripFormState) (ft : Bool)
    (dep ret : JsDate)
    (hdep : parseDateNormalized (some fd.dep_date) = some dep)
    (hret : parseDateNormalized (some fd.ret_date) = some ret)
    (hord : ¬ dep.epochDays > ret.epochDays)
    (hmulti : ¬ (strIncludes (jsToLower fd.trip_type) "multi" = true ∧
                 daysInclusive dep ret < 2))
    (hfeas : ∀ h d, buildThreePlans env fd ft ≠ .error (.infeasible h d)) :
    ∃ r, buildThreePlans env fd ft = .ok r ∧ r.plans.length = 3 := by
  have hred := @buildThreePlans_eq_core env fd ft _ _ hdep hret hord hmulti
  rw [hred]
  simp only [buildCore]
  by_cases hv : (validDestinations fd).length > 0
  · rw [if_pos hv]
    by_cases hr : (resolveStops env (validDestinations fd)).length > 0
    · rw [if_pos hr]
      cases hm : multiThree env fd ft (resolveOrigin env fd)
          (resolveStops env (validDestinations fd)) (daysInclusive dep ret) with
      | error e =>
          obtain ⟨hh, dd, rfl⟩ := multiThree_error_infeasible hm
          refine absurd ?_ (hfeas hh dd)
          rw [hred]
          simp only [buildCore]
          rw [if_pos hv, if_pos hr]
          exact hm
      | ok r => exact ⟨r, rfl, multiThree_ok_len hm⟩
    · rw [if_neg hr]
      exact ⟨_, rfl, regionalThree_len env fd ft (resolveOrigin env fd) _ []⟩
  · rw [if_neg hv]
    exact ⟨_, rfl, regionalThree_len env fd ft (resolveOrigin env fd) _ _⟩

/-- The all-providers-failing environment. -/
def envFail : Env :=
  { geonames := fun _ => none, ors := fun _ => none, route := fun _ => none,
    otm := fun _ _ _ => [], wikidata := fun _ _ _ _ => [], geminiKey := none,
    geminiSuggest := fun _ _ _ => [], geminiItinerary := fun _ => ⟨[], []⟩,
    haversine_m := fun _ _ _ _ => 0 }

set_option maxRecDepth 4000 in
/-- Witness for C1: the concrete request `fdCostW` under the
all-providers-failing environment with `forceTemplates = true`. -/
theorem c1_exactly_three_plans_witness :
    ∃ r, buildThreePlans envFail fdCostW true = .ok r ∧ r.plans.length = 3 :=
  c1_exactly_three_plans envFail fdCostW true ⟨20209⟩ ⟨20213⟩
    (by with_unfolding_all rfl) (by with_unfolding_all rfl)
    (by norm_num)
    (by
      intro hand
      have h5 : daysInclusive ⟨20209⟩ ⟨20213⟩ = 5 := by with_unfolding_all rfl
      rw [h5] at hand
      exact absurd hand.2 (by norm_num))
    (by
      intro h d hc
      have hok : buildThreePlans envFail fdCostW true =
          .ok ((buildThreePlans envFail fdCostW true).toOption.getD ⟨[], none⟩) := by
        with_unfolding_all rfl
      rw [hok] at hc
      exact Except.noConfusion hc)

/-- The infeasibility throw of one multi-stop tier. -/
theorem multiPlanFor_error_of_cond {env : Env} {fd : TripFormState} {ft : Bool}
    {o : GeoLocation} {stops : List GeoLocation} {days : ℤ} (tier : Tier)
    (hc : (resolveRouteMulti env o stops).duration_s.getD 0 / 3600 * 2 > (days : ℚ) * 9) :
    multiPlanFor env fd ft o stops days tier =
      .error (.infeasible
        (jsRound ((resolveRouteMulti env o stops).duration_s.getD 0 / 3600 * 2)) days) := by
  simp only [multiPlanFor]
  rw [if_pos hc]

/-- C2 (amended).  The feasibility check runs only in the explicit
multi-stop mode: there, `buildThreePlans` fails with the infeasibility
error exactly when twice the one-way travel time exceeds `days × 9`
hours, and succeeds otherwise.  (In the suggested/regional mode no
feasibility check is performed at all — see the counterexample.) -/
theorem c2_infeasibility_multi_stop_only (env : Env) (fd : TripFormState) (ft : Bool)
    (dep ret : JsDate)
    (hdep : parseDateNormalized (some fd.dep_date) = some dep)
    (hret : parseDateNormalized (some fd.ret_date) = some ret)
    (hord : ¬ dep.epochDays > ret.epochDays)
    (hmulti : ¬ (strIncludes (jsToLower fd.trip_type) "multi" = true ∧
                 daysInclusive dep ret < 2))
    (hv : (validDestinations fd).length > 0)
    (hr : (resolveStops env (validDestinations fd)).length > 0) :
    ((resolveRouteMulti env (resolveOrigin env fd)
        (resolveStops env (validDestinations fd))).duration_s.getD 0 / 3600 * 2 >
        (daysInclusive dep ret : ℚ) * 9 →
      buildThreePlans env fd ft =
        .error (.infeasible
          (jsRound ((resolveRouteMulti env (resolveOrigin env fd)
            (resolveStops env (validDestinations fd))).duration_s.getD 0 / 3600 * 2))
          (daysInclusive dep ret))) ∧
    (¬ ((resolveRouteMulti env (resolveOrigin env fd)
        (resolveStops env (validDestinations fd))).duration_s.getD 0 / 3600 * 2 >
        (daysInclusive dep ret : ℚ) * 9) →
      ∃ r, buildThreePlans env fd ft = .ok r) := by
  have hred := @buildThreePlans_eq_core env fd ft _ _ hdep hret hord hmulti
  constructor
  · intro hc
    rw [hred]
    simp only [buildCore]
    rw [if_pos hv, if_pos hr]
    unfold multiThree
    rw [multiPlanFor_error_of_cond .budget hc]
    simp [Bind.bind, Except.bind]
  · intro hc
    rw [hred]
    simp only [buildCore]
    rw [if_pos hv, if_pos hr]
    obtain ⟨p1, h1⟩ := @multiPlanFor_ok_of_feasible env fd ft _ _ _ .budget hc
    obtain ⟨p2, h2⟩ := @multiPlanFor_ok_of_feasible env fd ft _ _ _ .balanced hc
    obtain ⟨p3, h3⟩ := @multiPlanFor_ok_of_feasible env fd ft _ _ _ .premium hc
    unfold multiThree
    rw [h1, h2, h3]
    exact ⟨_, rfl⟩

/-- A resolved location every geocoding query maps to in the witness
environments. -/
def geoW : GeoLocation :=
  { lat := 45.8, lng := 15.97, name := "Zagreb",
    source := "geonames", url := some "https://www.geonames.org/3186886" }

/-- Geocoding succeeds, the routing provider reports a 1000-hour one-way
drive. -/
def envRouteSlow : Env :=
  { envFail with
    geonames := fun _ => some geoW,
    route := fun _ => some { distance_m := some 100000, duration_s := some 3600000,
                             polyline := [] } }

/-- Geocoding succeeds, the routing provider reports a 1-hour one-way
drive. -/
def envRouteFast : Env :=
  { envFail with
    geonames := fun _ => some geoW,
    route := fun _ => some { distance_m := some 100000, duration_s := some 3600,
                             polyline := [] } }

/-- `fdCostW` with one explicit destination (multi-stop mode). -/
def fdMultiW : TripFormState := { fdCostW with destinations := ["Zagreb"] }

set_option maxRecDepth 4000 in
/-- Witness for C2 (amended): with a 1000-hour route the multi-stop
request fails infeasible; with a 1-hour route it succeeds. -/
theorem c2_infeasibility_multi_stop_only_witness :
    buildThreePlans envRouteSlow fdMultiW true = .error (.infeasible 2000 5) ∧
    ∃ r, buildThreePlans envRouteFast fdMultiW true = .ok r := by
  have hdepS : parseDateNormalized (some fdMultiW.dep_date) = some ⟨20209⟩ := by
    with_unfolding_all rfl
  have hretS : parseDateNormalized (some fdMultiW.ret_date) = some ⟨20213⟩ := by
    with_unfolding_all rfl
  have hmultiS : ¬ (strIncludes (jsToLower fdMultiW.trip_type) "multi" = true ∧
      daysInclusive ⟨20209⟩ ⟨20213⟩ < 2) := by
    intro hand
    have h5 : daysInclusive ⟨20209⟩ ⟨20213⟩ = 5 := by with_unfolding_all rfl
    rw [h5] at hand
    exact absurd hand.2 (by norm_num)
  have h5 : daysInclusive ⟨20209⟩ ⟨20213⟩ = 5 := by with_unfolding_all rfl
  constructor
  · have hslow : (resolveRouteMulti envRouteSlow (resolveOrigin envRouteSlow fdMultiW)
        (resolveStops envRouteSlow (validDestinations fdMultiW))).duration_s.getD 0 / 3600
        = 1000 := by
      with_unfolding_all rfl
    have h := (c2_infeasibility_multi_stop_only envRouteSlow fdMultiW true ⟨20209⟩ ⟨20213⟩
        hdepS hretS (by norm_num) hmultiS
        (by with_unfolding_all decide) (by with_unfolding_all decide)).1
      (by rw [hslow, h5]; norm_num)
    rw [h, hslow, h5]
    have : jsRound ((1000 : ℚ) * 2) = 2000 := by with_unfolding_all rfl
    rw [this]
  · exact (c2_infeasibility_multi_stop_only envRouteFast fdMultiW true ⟨20209⟩ ⟨20213⟩
      hdepS hretS (by norm_num) hmultiS
      (by with_unfolding_all decide) (by with_unfolding_all decide)).2
      (by
        have hfast : (resolveRouteMulti envRouteFast (resolveOrigin envRouteFast fdMultiW)
            (resolveStops envRouteFast (validDestinations fdMultiW))).duration_s.getD 0 / 3600
            = 1 := by
          with_unfolding_all rfl
        rw [hfast, h5]
        norm_num)

set_option maxRecDepth 4000 in
/-- C2 (counterexample).  In the suggested-destinations mode the claimed
infeasibility check never runs: with the same 1000-hour route data
(`2 × 1000 > 5 × 9`) and no explicit destination, `buildThreePlans`
succeeds and returns 3 plans reporting the 1000-hour travel time instead
of raising the infeasibility error. -/
theorem c2_regional_mode_never_infeasible :
    (buildThreePlans envRouteSlow fdCostW true).toOption.map
        (fun r => r.plans.map (fun p => (p.travel_time_h, p.number_of_days))) =
      some [(1000, 5), (1000, 5), (1000, 5)] ∧
    (1000 : ℚ) * 2 > (5 : ℚ) * 9 := by
  constructor
  · with_unfolding_all rfl
  · norm_num

/-- When templates are forced or the itinerary provider yields nothing,
the multi-stop synthesis step produces no itinerary days. -/
theorem synthMulti_fst_nil {env : Env} {fd : TripFormState} {ft : Bool}
    {stops : List GeoLocation} {o : GeoLocation} {days : ℤ} {tier : Tier}
    {tth : ℚ} {pois : List Poi}
    (hsyn : ft = true ∨ ∀ a, (env.geminiItinerary a).itinerary = []) :
    (synthMulti env fd ft stops o days tier tth pois).1 = [] := by
  unfold synthMulti
  rcases hsyn with rfl | hall
  · rfl
  · by_cases hft : ft
    · simp [hft]
    · simp [hft, hall]

/-- Under the same condition, every regional plan carries the one-line
placeholder itinerary. -/
theorem regionalPlanFor_itinerary {env : Env} {fd : TripFormState} {ft : Bool}
    {o : GeoLocation} {days : ℤ} {tier : Tier} {cand : Enriched}
    (hsyn : ft = true ∨ ∀ a, (env.geminiItinerary a).itinerary = []) :
    (regionalPlanFor env fd ft o days tier cand).itinerary =
      [{ day := 1, activity := "Fallback itinerary.", poi_name := none }] := by
  simp only [regionalPlanFor]
  rcases hsyn with rfl | hall
  · rfl
  · by_cases hft : ft
    · simp [hft]
    · simp [hft, hall]

/-- Under the same condition, every successful multi-stop plan carries
the one-line placeholder itinerary. -/
theorem multiPlanFor_ok_itinerary {env : Env} {fd : TripFormState} {ft : Bool}
    {o : GeoLocation} {stops : List GeoLocation} {days : ℤ} {tier : Tier}
    {p : TripPlan}
    (hsyn : ft = true ∨ ∀ a, (env.geminiItinerary a).itinerary = [])
    (h : multiPlanFor env fd ft o stops days tier = .ok p) :
    p.itinerary = [{ day := 1, activity := "Itinerary generation failed.", poi_name := none }] := by
  simp only [multiPlanFor] at h
  split at h
  · exact absurd h (by simp)
  · injection h with h2
    rw [← h2]
    simp [synthMulti_fst_nil hsyn]

/-- Decomposition of a successful multi-stop branch. -/
theorem multiThree_ok_elim {env : Env} {fd : TripFormState} {ft : Bool}
    {o : GeoLocation} {stops : List GeoLocation} {days : ℤ} {r : PlannerResult}
    (h : multiThree env fd ft o stops days = .ok r) :
    ∃ p1 p2 p3, multiPlanFor env fd ft o stops days .budget = .ok p1 ∧
      multiPlanFor env fd ft o stops days .balanced = .ok p2 ∧
      multiPlanFor env fd ft o stops days .premium = .ok p3 ∧
      r.plans = [p1, p2, p3] := by
  unfold multiThree at h
  cases h1 : multiPlanFor env fd ft o stops days .budget with
  | error e => rw [h1] at h; exact absurd h (by simp [Bind.bind, Except.bind])
  | ok p1 =>
    rw [h1] at h
    simp only [Bind.bind, Except.bind] at h
    cases h2 : multiPlanFor env fd ft o stops days .balanced with
    | error e => rw [h2] at h; exact absurd h (by simp)
    | ok p2 =>
      rw [h2] at h
      cases h3 : multiPlanFor env fd ft o stops days .premium with
      | error e => rw [h3] at h; exact absurd h (by simp)
      | ok p3 =>
        rw [h3] at h
        simp only [pure, Except.pure] at h
        injection h with h4
        exact ⟨p1, p2, p3, rfl, rfl, rfl, by rw [← h4]⟩

/-- C6 (amended).  Whenever AI itinerary synthesis yields nothing
(`forceTemplates = true`, or the provider returns an empty itinerary for
every prompt), each emitted plan's itinerary is a single placeholder
entry — day 1 with `'Itinerary generation failed.'` in the multi-stop
mode or `'Fallback itinerary.'` in the suggested mode — regardless of the
planned trip length. -/
theorem c6_fallback_itinerary_is_placeholder (env : Env) (fd : TripFormState)
    (ft : Bool) (r : PlannerResult)
    (hsyn : ft = true ∨ ∀ a, (env.geminiItinerary a).itinerary = [])
    (hok : buildThreePlans env fd ft = .ok r) :
    ∀ p ∈ r.plans,
      p.itinerary = [{ day := 1, activity := "Itinerary generation failed.", poi_name := none }] ∨
      p.itinerary = [{ day := 1, activity := "Fallback itinerary.", poi_name := none }] := by
  intro p hp
  unfold buildThreePlans at hok
  split at hok
  · split at hok
    · exact absurd hok (by simp)
    · split at hok
      · exact absurd hok (by simp)
      · simp only [buildCore] at hok
        split at hok
        · split at hok
          · obtain ⟨p1, p2, p3, h1, h2, h3, hpl⟩ := multiThree_ok_elim hok
            rw [hpl] at hp
            simp only [List.mem_cons, List.not_mem_nil, or_false] at hp
            rcases hp with rfl | rfl | rfl
            · exact Or.inl (multiPlanFor_ok_itinerary hsyn h1)
            · exact Or.inl (multiPlanFor_ok_itinerary hsyn h2)
            · exact Or.inl (multiPlanFor_ok_itinerary hsyn h3)
          · injection hok with h4
            rw [← h4] at hp
            simp only [regionalThree, List.mem_cons, List.not_mem_nil, or_false] at hp
            rcases hp with rfl | rfl | rfl <;>
              exact Or.inr (regionalPlanFor_itinerary hsyn)
        · injection hok with h4
          rw [← h4] at hp
          simp only [regionalThree, List.mem_cons, List.not_mem_nil, or_false] at hp
          rcases hp with rfl | rfl | rfl <;>
            exact Or.inr (regionalPlanFor_itinerary hsyn)
  · exact absurd hok (by simp)

/-- A placeholder `TripPlan` used as a `headD` default by the C6
witness. -/
def dummyPlan : TripPlan :=
  { title := "", reliability := 0, destination := "", number_of_days := 0,
    itinerary := [], estimated_cost_per_student := "",
    cost_breakdown :=
      { transport := 0, accommodation := 0, meals := 0, entry_fees := 0,
        activity_fees := 0, local_transport := 0, contingency := 0, total := 0,
        per_student := 0, transport_note := "", accom_rate_per_person := 0,
        accom_note := "" },
    distance_km := 0, travel_time_h := 0, accompanying_teachers := "", why := "",
    sources := [], polyline := [] }

set_option maxRecDepth 4000 in
/-- Witness for C6: the first plan of the concrete all-failing run. -/
theorem c6_fallback_itinerary_is_placeholder_witness :
    (((buildThreePlans envFail fdCostW true).toOption.getD ⟨[], none⟩).plans.headD
        dummyPlan).itinerary =
      [{ day := 1, activity := "Itinerary generation failed.", poi_name := none }] ∨
    (((buildThreePlans envFail fdCostW true).toOption.getD ⟨[], none⟩).plans.headD
        dummyPlan).itinerary =
      [{ day := 1, activity := "Fallback itinerary.", poi_name := none }] :=
  c6_fallback_itinerary_is_placeholder envFail fdCostW true _ (Or.inl rfl)
    (by with_unfolding_all rfl) _ (by with_unfolding_all exact List.mem_cons_self _ _)

set_option maxRecDepth 4000 in
/-- C6 (counterexample).  On a 5-day request with templates forced, every
plan's fallback itinerary is the single entry
`{day 1, 'Fallback itinerary.'}` — one `ItineraryDay`, not five, and no
POI-visit days — refuting the claimed multi-day template. -/
theorem c6_fallback_is_single_placeholder_day :
    (buildThreePlans envFail fdCostW true).toOption.map
        (fun r => r.plans.map (fun p => (p.itinerary, p.itinerary.length, p.number_of_days))) =
      some [([{ day := 1, activity := "Fallback itinerary.", poi_name := none }], 1, 5),
            ([{ day := 1, activity := "Fallback itinerary.", poi_name := none }], 1, 5),
            ([{ day := 1, activity := "Fallback itinerary.", poi_name := none }], 1, 5)] ∧
    (1 : ℤ) ≠ 5 := by
  constructor
  · with_unfolding_all rfl
  · norm_num

/-- The first 12 curated candidates (the `SUGGESTED_CITIES` flattening
truncated to 12). -/
def curatedTwelve : List Candidate :=
  [{ city := "Sarajevo", country := some "Bosnia and Herzegovina" },
   { city := "Mostar", country := some "Bosnia and Herzegovina" },
   { city := "Tuzla", country := some "Bosnia and Herzegovina" },
   { city := "Zagreb", country := some "Croatia" },
   { city := "Split", country := some "Croatia" },
   { city := "Dubrovnik", country := some "Croatia" },
   { city := "Belgrade", country := some "Serbia" },
   { city := "Novi Sad", country := some "Serbia" },
   { city := "Niš", country := some "Serbia" },
   { city := "Vienna", country := some "Austria" },
   { city := "Salzburg", country := some "Austria" },
   { city := "Innsbruck", country := some "Austria" }]

/-- With the AI key absent, destination suggestion always falls back to
the curated list (truncated to 12). -/
theorem suggestedCandidates_no_key {env : Env} {fd : TripFormState}
    {o : GeoLocation} {ft : Bool} (hkey : env.geminiKey = none) :
    suggestedCandidates env fd o ft = curatedTwelve := by
  unfold suggestedCandidates
  rw [hkey]
  rw [if_neg (show ¬ (¬ ft = true ∧ (none : Option String).isSome = true) from
        fun hand => absurd hand.2 (by simp))]
  rfl

/-- A candidate without trusted coordinates resolves to nothing when both
geocoders fail. -/
theorem resolveCand_none {env : Env} {fd : TripFormState} {ft : Bool}
    {c : Candidate} (hlat : c.lat = none)
    (hgeo : env.geonames = fun _ => none) (hors : env.ors = fun _ => none) :
    resolveCand env fd ft c = none := by
  unfold resolveCand
  rw [hlat, hgeo, hors]
  simp [jsTruthyNum]

/-- The enrichment loop is the identity on its accumulator when no
candidate resolves. -/
theorem enrichLoop_all_none {env : Env} {fd : TripFormState} {ft : Bool} :
    ∀ (cs : List Candidate) (acc : List Enriched),
      (∀ c ∈ cs, resolveCand env fd ft c = none) →
      enrichLoop env fd ft cs acc = acc := by
  intro cs
  induction cs with
  | nil => intro acc _; rfl
  | cons c rest ih =>
      intro acc h
      unfold enrichLoop
      rw [h c (List.mem_cons_self c rest)]
      exact ih acc (fun d hd => h d (List.mem_cons_of_mem c hd))

/-- C8 (amended).  For every request whose destination list has no
non-empty text, when the geocoders always fail and the AI key is absent,
`buildThreePlans` reaches the curated fallback but cannot enrich any
curated candidate; the ultimate fallback then produces 3 plans that all
carry the single hardcoded destination `'Sarajevo, BiH'` — one city
repeated, not 3 distinct curated city names. -/
theorem c8_all_providers_down_sarajevo_fallback (env : Env) (fd : TripFormState)
    (ft : Bool) (dep ret : JsDate)
    (hdep : parseDateNormalized (some fd.dep_date) = some dep)
    (hret : parseDateNormalized (some fd.ret_date) = some ret)
    (hord : ¬ dep.epochDays > ret.epochDays)
    (hmulti : ¬ (strIncludes (jsToLower fd.trip_type) "multi" = true ∧
                 daysInclusive dep ret < 2))
    (hv : (validDestinations fd).length = 0)
    (hgeo : env.geonames = fun _ => none)
    (hors : env.ors = fun _ => none)
    (hkey : env.geminiKey = none) :
    ∃ r, buildThreePlans env fd ft = .ok r ∧
      r.plans.map (fun p => p.destination) =
        ["Sarajevo, BiH", "Sarajevo, BiH", "Sarajevo, BiH"] := by
  rw [buildThreePlans_eq_core hdep hret hord hmulti]
  simp only [buildCore]
  rw [if_neg (by omega : ¬ (validDestinations fd).length > 0)]
  refine ⟨_, rfl, ?_⟩
  simp only [regionalThree]
  rw [suggestedCandidates_no_key hkey,
      enrichLoop_all_none curatedTwelve []
        (fun c hc => by
          fin_cases hc <;> exact resolveCand_none rfl hgeo hors)]
  simp only [List.map_cons, List.map_nil]
  rfl

set_option maxRecDepth 4000 in
/-- Witness for C8 at the concrete all-failing run. -/
theorem c8_all_providers_down_sarajevo_fallback_witness :
    ∃ r, buildThreePlans envFail fdCostW true = .ok r ∧
      r.plans.map (fun p => p.destination) =
        ["Sarajevo, BiH", "Sarajevo, BiH", "Sarajevo, BiH"] :=
  c8_all_providers_down_sarajevo_fallback envFail fdCostW true ⟨20209⟩ ⟨20213⟩
    (by with_unfolding_all rfl) (by with_unfolding_all rfl) (by norm_num)
    (by
      intro hand
      have h5 : daysInclusive ⟨20209⟩ ⟨20213⟩ = 5 := by with_unfolding_all rfl
      rw [h5] at hand
      exact absurd hand.2 (by norm_num))
    rfl rfl rfl rfl

set_option maxRecDepth 4000 in
/-- C8 (counterexample).  With empty destinations and every provider
failing, the three produced destinations are all the same hardcoded
string `'Sarajevo, BiH'` — not 3 distinct destinations — and that string
is not a member of the curated `SUGGESTED_CITIES` name set. -/
theorem c8_fallback_not_three_distinct_curated :
    (buildThreePlans envFail fdCostW true).toOption.map
        (fun r => r.plans.map (fun p => p.destination)) =
      some ["Sarajevo, BiH", "Sarajevo, BiH", "Sarajevo, BiH"] ∧
    ("Sarajevo, BiH" ∈ (SUGGESTED_CITIES.map Prod.snd).flatten → False) := by
  constructor
  · with_unfolding_all rfl
  · decide
